import Mathlib

/-!
Verification of the generation request lifecycle of the Visa WWC
infographic client (src/frontend/src/App.js).

The GeneratorPage component holds four pieces of local state
(`loading`, `generatedImage`, `error`, `loadingMessage`).  The async
function `generateInfographic` clears prior result/error, enters the
loading state, schedules three cosmetic progress-message timers, issues
one POST request, and then resolves to a result or an error; a
`finally` block clears the loading flag.  `downloadImage` saves the
held image under a fixed file name.  The render section shows the
loading, error, result or placeholder containers from boolean
conditions on the state, and hides the trigger button when an image is
held.

JavaScript truthiness on strings (empty string is falsy) is modelled
explicitly, as is the `a || b || c` fallback chain used to pick the
error message.
-/

/-- The local state of the GeneratorPage component: the four useState
hooks `loading`, `generatedImage`, `error`, `loadingMessage`. -/
structure AppState where
  loading : Bool
  generatedImage : Option String
  error : Option String
  loadingMessage : String
  deriving DecidableEq

/-- The initial component state: `useState(false)`, `useState(null)`,
`useState(null)`, `useState("")`. -/
def initialState : AppState :=
  { loading := false, generatedImage := none, error := none, loadingMessage := "" }

/-- JavaScript truthiness of a nullable string: null/undefined and the
empty string are falsy. -/
def truthyS : Option String → Bool
  | some s => s ≠ ""
  | none => false

/-- The JavaScript `a || b` fallback on a nullable string `a`: yields
`b` when `a` is absent or the empty string (falsy), else `a`. -/
def jsOr (a : Option String) (b : String) : String :=
  match a with
  | some s => if s = "" then b else s
  | none => b

/-- The body of a successful backend response, `response.data`: it may
carry an `image_base64` string field. -/
structure RespData where
  image_base64 : Option String
  deriving DecidableEq

/-- The information carried by a caught error `err`:
`err.response?.data?.detail` flattened to an optional string (absent
when there is no response, no data, or no detail field), and
`err.message`. -/
structure ErrInfo where
  detail : Option String
  message : Option String
  deriving DecidableEq

/-- Outcome of the awaited `axios.post` call: it resolves with a
response whose `data` may be absent or malformed, or rejects with an
error. -/
inductive NetOutcome where
  | success (data : Option RespData)
  | failure (e : ErrInfo)
  deriving DecidableEq

/-- The error thrown by `throw new Error("No image data received")`:
a plain Error has no `response` property, and its `message` is the
constructor argument. -/
def noImageError : ErrInfo :=
  { detail := none, message := some "No image data received" }

/-- Lines 72-75 of App.js: `setLoading(true); setError(null);
setGeneratedImage(null); setLoadingMessage("Preparing your
infographic...")`. -/
def enterLoading (s : AppState) : AppState :=
  { s with
      loading := true
      error := none
      generatedImage := none
      loadingMessage := "Preparing your infographic..." }

/-- The generic fallback error message of line 96. -/
def fallbackMessage : String :=
  "Failed to generate infographic. Please try again."

/-- The catch block (lines 91-98): `setError(err.response?.data?.detail
|| err.message || "Failed to generate infographic. Please try again.");
setLoadingMessage("")`. -/
def catchHandler (s : AppState) (e : ErrInfo) : AppState :=
  { s with
      error := some (jsOr e.detail (jsOr e.message fallbackMessage))
      loadingMessage := "" }

/-- The finally block (lines 99-101): `setLoading(false)`. -/
def finallyHandler (s : AppState) : AppState :=
  { s with loading := false }

/-- Lines 83-101: resolution of the awaited request against the state
current at resolution time.  On a response whose `data` and
`data.image_base64` are both truthy, `setGeneratedImage` and
`setLoadingMessage("")`; otherwise the thrown no-image error, or the
rejection error, reaches the catch block; the finally block then
clears the loading flag. -/
def resolveRequest (s : AppState) (net : NetOutcome) : AppState :=
  finallyHandler
    (match net with
     | NetOutcome.success dataOpt =>
         match dataOpt with
         | some d =>
             match d.image_base64 with
             | some img =>
                 if img = "" then catchHandler s noImageError
                 else { s with generatedImage := some img, loadingMessage := "" }
             | none => catchHandler s noImageError
         | none => catchHandler s noImageError
     | NetOutcome.failure e => catchHandler s e)

/-- One full invocation of `generateInfographic` (lines 71-102),
parameterised by the outcome of the single network call: enter
loading, then resolve. -/
def generateInfographic (s : AppState) (net : NetOutcome) : AppState :=
  resolveRequest (enterLoading s) net

/-- The three `setTimeout` calls of lines 79-81: delay in milliseconds
paired with the progress message each one sets. -/
def timerSchedule : List (Nat × String) :=
  [(2000, "Analyzing data and structure..."),
   (5000, "Creating visual design with Visa blue theme..."),
   (10000, "Finalizing your infographic...")]

/-- The outbound HTTP request of line 83: `axios.post` to
`${API}/generate-infographic` with no body. -/
structure ApiRequest where
  path : String
  body : Option String
  deriving DecidableEq

/-- The one request `generateInfographic` issues. -/
def generateRequest : ApiRequest :=
  { path := "/api/generate-infographic", body := none }

/-- Observable trace of one `generateInfographic` invocation: the state
on entering Loading, the request issued, the timers scheduled, the
timers cancelled (the source never calls clearTimeout, so none), and
the final state. -/
structure GenerateTrace where
  request : ApiRequest
  loadingState : AppState
  scheduled : List (Nat × String)
  cancelled : List Nat
  finalState : AppState
  deriving DecidableEq

/-- The trace of `generateInfographic` from state `s` with network
outcome `net`.  The scheduled timers are fixed by lines 79-81 and no
cancellation exists anywhere in the source. -/
def generateTrace (s : AppState) (net : NetOutcome) : GenerateTrace :=
  { request := generateRequest
    loadingState := enterLoading s
    scheduled := timerSchedule
    cancelled := []
    finalState := generateInfographic s net }

/-- The `onClick` handler of the retry button in the error container
(line 187): the very same `generateInfographic` function. -/
def retryOnClick : AppState → NetOutcome → AppState :=
  generateInfographic

/-- The `onClick` handler of the regenerate button in the result
container (line 210): the very same `generateInfographic` function. -/
def regenerateOnClick : AppState → NetOutcome → AppState :=
  generateInfographic

/-- The effect of `downloadImage` (lines 104-113): a no-op when
`generatedImage` is falsy, otherwise a browser save of the held
payload as href with the fixed download file name. -/
structure DownloadAction where
  href : String
  download : String
  deriving DecidableEq

/-- Lines 104-113: `if (!generatedImage) return;` then create a link
with `href = generatedImage` and `download =
'visa-wwc-infographic.png'` and click it.  No network call and no
state mutation occur. -/
def downloadImage (s : AppState) : Option DownloadAction :=
  match s.generatedImage with
  | none => none
  | some img =>
      if img = "" then none
      else some { href := img, download := "visa-wwc-infographic.png" }

/-- Render condition of the result container (line 193):
`generatedImage && !loading`. -/
def showsResult (s : AppState) : Bool :=
  truthyS s.generatedImage && !s.loading

/-- Render condition of the error container (line 182): `error && ...`. -/
def showsError (s : AppState) : Bool :=
  truthyS s.error

/-- Render condition of the loading container (line 174):
`loading && ...`. -/
def showsLoading (s : AppState) : Bool :=
  s.loading

/-- Render condition of the generate trigger button (line 162):
`!generatedImage && ...` — the button is in the tree exactly when no
image is held. -/
def generateButtonRendered (s : AppState) : Bool :=
  !truthyS s.generatedImage

/-- The `disabled={loading}` attribute of the generate button
(line 166). -/
def generateButtonDisabled (s : AppState) : Bool :=
  s.loading

/-- Atomic state changes of the Generator View: entering Loading
(lines 72-75), resolution of an in-flight request against the current
state (lines 83-101; a request is in flight only while `loading`
holds), and a progress timer firing (lines 79-81, touching only
`loadingMessage`). -/
inductive Step : AppState → AppState → Prop
  | enter (s : AppState) : Step s (enterLoading s)
  | resolve (s : AppState) (net : NetOutcome) (h : s.loading = true) :
      Step s (resolveRequest s net)
  | timer (s : AppState) (m : String) (h : m ∈ timerSchedule.map Prod.snd) :
      Step s { s with loadingMessage := m }

/-- States reachable from the initial component state by the steps of
the Generator View. -/
inductive Reachable : AppState → Prop
  | init : Reachable initialState
  | step {s t : AppState} : Reachable s → Step s t → Reachable t

/-- Invariant of every reachable state: while loading, no result and
no error are held; and a result and an error are never held at once. -/
theorem reachable_invariant (s : AppState) (h : Reachable s) :
    (s.loading = true → s.generatedImage = none ∧ s.error = none) ∧
    (s.generatedImage = none ∨ s.error = none) := by
  induction h with
  | init => simp [initialState]
  | step _ hstep ih =>
      cases hstep with
      | enter => simp [enterLoading]
      | resolve net hl =>
          obtain ⟨himg, herr⟩ := ih.1 hl
          cases net with
          | success dataOpt =>
              cases dataOpt with
              | none =>
                  simp [resolveRequest, finallyHandler, catchHandler, himg]
              | some d =>
                  cases himg64 : d.image_base64 with
                  | none =>
                      simp [resolveRequest, finallyHandler, catchHandler, himg64, himg]
                  | some img =>
                      by_cases he : img = "" <;>
                        simp [resolveRequest, finallyHandler, catchHandler, himg64, he,
                          himg, herr]
          | failure e =>
              simp [resolveRequest, finallyHandler, catchHandler, himg]
      | timer m hm =>
          exact ih

/-- C5: every terminal outcome of `generateInfographic` has the loading
flag cleared and the progress message cleared. -/
theorem terminal_clears_loading_and_message (s : AppState) (net : NetOutcome) :
    (generateInfographic s net).loading = false ∧
    (generateInfographic s net).loadingMessage = "" := by
  cases net with
  | success dataOpt =>
      cases dataOpt with
      | none =>
          simp [generateInfographic, resolveRequest, finallyHandler, catchHandler]
      | some d =>
          cases himg64 : d.image_base64 with
          | none =>
              simp [generateInfographic, resolveRequest, finallyHandler, catchHandler,
                himg64]
          | some img =>
              by_cases he : img = "" <;>
                simp [generateInfographic, resolveRequest, finallyHandler, catchHandler,
                  himg64, he]
  | failure e =>
      simp [generateInfographic, resolveRequest, finallyHandler, catchHandler]

/-- C1: every invocation of generateInfographic clears the prior result
and the prior error on entering the Loading state (lines 73-74), and
consequently in every reachable state a result and an error are never
held simultaneously. -/
theorem loading_clears_result_and_error :
    (∀ s : AppState,
        (enterLoading s).generatedImage = none ∧ (enterLoading s).error = none) ∧
    (∀ t : AppState, Reachable t → t.generatedImage = none ∨ t.error = none) :=
  ⟨fun _ => ⟨rfl, rfl⟩, fun t h => (reachable_invariant t h).2⟩

/-- Witness for C1 at concrete states. -/
theorem loading_clears_result_and_error_witness :
    ((enterLoading initialState).generatedImage = none ∧
      (enterLoading initialState).error = none) ∧
    (initialState.generatedImage = none ∨ initialState.error = none) :=
  ⟨loading_clears_result_and_error.1 initialState,
   loading_clears_result_and_error.2 initialState Reachable.init⟩

/-- C2: a successful backend response whose body carries a non-empty
string field image_base64 with value X lands in the Result state
holding exactly X: the image is set to X, the loading flag and error
are cleared, and the result container renders. -/
theorem success_yields_result_exactly (s : AppState) (X : String) (h : X ≠ "") :
    (generateInfographic s
        (NetOutcome.success (some { image_base64 := some X }))).generatedImage = some X ∧
    (generateInfographic s
        (NetOutcome.success (some { image_base64 := some X }))).loading = false ∧
    (generateInfographic s
        (NetOutcome.success (some { image_base64 := some X }))).error = none ∧
    showsResult (generateInfographic s
        (NetOutcome.success (some { image_base64 := some X }))) = true := by
  simp [generateInfographic, resolveRequest, finallyHandler, enterLoading,
    showsResult, truthyS, h]

/-- Witness for C2 at a concrete payload. -/
theorem success_yields_result_exactly_witness :
    (generateInfographic initialState
        (NetOutcome.success (some { image_base64 := some "X" }))).generatedImage = some "X" :=
  (success_yields_result_exactly initialState "X" (by decide)).1

/-- C3: on a rejected request the displayed error message follows the
fallback chain of lines 93-97: a truthy backend detail field wins,
else a truthy transport error message, else the generic fallback
string. -/
theorem error_message_priority (s : AppState) (e : ErrInfo) :
    (∀ d, e.detail = some d → d ≠ "" →
        (generateInfographic s (NetOutcome.failure e)).error = some d) ∧
    (∀ m, (e.detail = none ∨ e.detail = some "") → e.message = some m → m ≠ "" →
        (generateInfographic s (NetOutcome.failure e)).error = some m) ∧
    ((e.detail = none ∨ e.detail = some "") → (e.message = none ∨ e.message = some "") →
        (generateInfographic s (NetOutcome.failure e)).error = some fallbackMessage) := by
  refine ⟨?_, ?_, ?_⟩
  · intro d hd hne
    simp [generateInfographic, resolveRequest, finallyHandler, catchHandler, jsOr, hd, hne]
  · intro m hdet hm hne
    rcases hdet with h1 | h1 <;>
      simp [generateInfographic, resolveRequest, finallyHandler, catchHandler,
        jsOr, h1, hm, hne]
  · intro hdet hmsg
    rcases hdet with h1 | h1 <;> rcases hmsg with h2 | h2 <;>
      simp [generateInfographic, resolveRequest, finallyHandler, catchHandler,
        jsOr, h1, h2]

/-- Witness for C3, exercising all three priority levels, including
the documented example of a backend detail "quota exceeded". -/
theorem error_message_priority_witness :
    (generateInfographic initialState
        (NetOutcome.failure { detail := some "quota exceeded", message := some "boom" })).error
      = some "quota exceeded" ∧
    (generateInfographic initialState
        (NetOutcome.failure { detail := none, message := some "Network Error" })).error
      = some "Network Error" ∧
    (generateInfographic initialState
        (NetOutcome.failure { detail := none, message := none })).error
      = some fallbackMessage :=
  ⟨(error_message_priority initialState
      { detail := some "quota exceeded", message := some "boom" }).1
        "quota exceeded" rfl (by decide),
   (error_message_priority initialState
      { detail := none, message := some "Network Error" }).2.1
        "Network Error" (Or.inl rfl) rfl (by decide),
   (error_message_priority initialState
      { detail := none, message := none }).2.2 (Or.inl rfl) (Or.inl rfl)⟩

/-- C4: a successful response whose body is absent, lacks image_base64,
or carries a falsy (empty) image_base64 lands in the Error state with
the generic no-image message, holds no image, and never renders the
result container. -/
theorem missing_payload_yields_error (s : AppState) (net : NetOutcome)
    (h : net = NetOutcome.success none ∨
         net = NetOutcome.success (some { image_base64 := none }) ∨
         net = NetOutcome.success (some { image_base64 := some "" })) :
    (generateInfographic s net).error = some "No image data received" ∧
    (generateInfographic s net).generatedImage = none ∧
    showsResult (generateInfographic s net) = false ∧
    showsError (generateInfographic s net) = true := by
  rcases h with h | h | h <;> subst h <;>
    simp [generateInfographic, resolveRequest, finallyHandler, catchHandler,
      noImageError, jsOr, enterLoading, showsResult, showsError, truthyS]

/-- Witness for C4 at a concrete empty-bodied response. -/
theorem missing_payload_yields_error_witness :
    (generateInfographic initialState (NetOutcome.success none)).error
      = some "No image data received" :=
  (missing_payload_yields_error initialState (NetOutcome.success none) (Or.inl rfl)).1

/-- C6: every invocation immediately sets the Preparing progress
message and schedules exactly three further progress-message updates
at 2000, 5000 and 10000 milliseconds; no timer is ever cancelled,
whatever the outcome of the request. -/
theorem progress_schedule_fixed_and_uncancelled (s : AppState) (net : NetOutcome) :
    (generateTrace s net).loadingState.loadingMessage = "Preparing your infographic..." ∧
    (generateTrace s net).scheduled =
      [(2000, "Analyzing data and structure..."),
       (5000, "Creating visual design with Visa blue theme..."),
       (10000, "Finalizing your infographic...")] ∧
    (generateTrace s net).scheduled.length = 3 ∧
    (generateTrace s net).cancelled = [] :=
  ⟨rfl, rfl, rfl, rfl⟩

/-- C7: the retry and regenerate buttons are wired to the very same
generateInfographic operation; any such invocation re-enters Loading
and issues the same parameterless request. -/
theorem retry_regenerate_identical_to_generate :
    retryOnClick = generateInfographic ∧
    regenerateOnClick = generateInfographic ∧
    (∀ s net, (generateTrace s net).loadingState.loading = true ∧
        (generateTrace s net).request = generateRequest) :=
  ⟨rfl, rfl, fun _ _ => ⟨rfl, rfl⟩⟩

/-- C8: in every reachable state, downloadImage is a no-op whenever the
result container is not shown, and when an image is held it saves
exactly the held payload under the fixed name
visa-wwc-infographic.png. -/
theorem download_noop_unless_result (s : AppState) (h : Reachable s) :
    (showsResult s = false → downloadImage s = none) ∧
    (∀ img, s.generatedImage = some img → img ≠ "" →
        downloadImage s = some { href := img, download := "visa-wwc-infographic.png" }) := by
  constructor
  · intro hres
    rcases himg : s.generatedImage with _ | img
    · simp [downloadImage, himg]
    · by_cases he : img = ""
      · simp [downloadImage, himg, he]
      · exfalso
        have hload : s.loading = true := by
          cases hb : s.loading with
          | true => rfl
          | false => simp [showsResult, truthyS, himg, he, hb] at hres
        have hnone := ((reachable_invariant s h).1 hload).1
        rw [hnone] at himg
        exact Option.noConfusion himg
  · intro img himg hne
    simp [downloadImage, himg, hne]

/-- Witness for C8: from the initial state the download is a no-op, and
after a successful generation it saves the held payload. -/
theorem download_noop_unless_result_witness :
    downloadImage initialState = none ∧
    downloadImage (generateInfographic initialState
        (NetOutcome.success (some { image_base64 := some "abc" })))
      = some { href := "abc", download := "visa-wwc-infographic.png" } :=
  ⟨(download_noop_unless_result initialState Reachable.init).1 rfl,
   (download_noop_unless_result
        (generateInfographic initialState
          (NetOutcome.success (some { image_base64 := some "abc" })))
        (Reachable.step (Reachable.step Reachable.init (Step.enter initialState))
          (Step.resolve (enterLoading initialState)
            (NetOutcome.success (some { image_base64 := some "abc" })) rfl))).2
      "abc" rfl (by decide)⟩

/-- C9 counterexample: in the reachable state entered by
generateInfographic from the initial state, the loading flag is true
yet the generate trigger button is still rendered — the render guard
of line 162 is the absence of a generated image, not the loading
flag. -/
theorem loading_hides_button_counterexample :
    (enterLoading initialState).loading = true ∧
    generateButtonRendered (enterLoading initialState) = true := by
  constructor <;> rfl

/-- C9 (amended): while the loading flag is true the generate button is
rendered but disabled via disabled={loading}, which prevents duplicate
user-initiated invocations while a generation is in flight; the button
is hidden exactly when a generated image is held. -/
theorem loading_disables_button (s : AppState) :
    (s.loading = true → generateButtonDisabled s = true) ∧
    (generateButtonRendered s = false ↔ truthyS s.generatedImage = true) := by
  constructor
  · intro h
    simpa [generateButtonDisabled] using h
  · simp [generateButtonRendered]

/-- Witness for the amended C9 at the concrete loading state. -/
theorem loading_disables_button_witness :
    generateButtonDisabled (enterLoading initialState) = true :=
  (loading_disables_button (enterLoading initialState)).1 rfl

/-- C10: an invocation of generateInfographic that starts from a state
holding an image and ends in any error outcome leaves no image held:
the prior result is cleared on entry and never restored on failure. -/
theorem failed_regeneration_holds_no_image (s : AppState) (net : NetOutcome) (img : String)
    (h1 : s.generatedImage = some img)
    (h2 : ∃ m, (generateInfographic s net).error = some m) :
    (generateInfographic s net).generatedImage = none := by
  cases net with
  | success dataOpt =>
      cases dataOpt with
      | none =>
          simp [generateInfographic, resolveRequest, finallyHandler, catchHandler,
            enterLoading]
      | some d =>
          cases h64 : d.image_base64 with
          | none =>
              simp [generateInfographic, resolveRequest, finallyHandler, catchHandler,
                enterLoading, h64]
          | some i =>
              by_cases he : i = ""
              · simp [generateInfographic, resolveRequest, finallyHandler, catchHandler,
                  enterLoading, h64, he]
              · exfalso
                obtain ⟨m, hm⟩ := h2
                simp [generateInfographic, resolveRequest, finallyHandler, enterLoading,
                  h64, he] at hm
  | failure e =>
      simp [generateInfographic, resolveRequest, finallyHandler, catchHandler,
        enterLoading]

/-- Witness for C10: regenerating from a held image and failing with a
bare transport error leaves no image. -/
theorem failed_regeneration_holds_no_image_witness :
    (generateInfographic
        { loading := false, generatedImage := some "old", error := none, loadingMessage := "" }
        (NetOutcome.failure { detail := none, message := none })).generatedImage = none :=
  failed_regeneration_holds_no_image
    { loading := false, generatedImage := some "old", error := none, loadingMessage := "" }
    (NetOutcome.failure { detail := none, message := none })
    "old" rfl ⟨fallbackMessage, rfl⟩
